import Mathlib

/-!
Shallow embedding of the core record-keeping logic of `uber_prof.py`
(trip metric derivation, duplicate detection, wallet/fuel ledgers,
fuel-purchase validation, report aggregation, paginated load), together
with theorems checking the natural-language specification against it.

Python floats are modelled as exact rationals (`ℚ`); `round(x, 2)` is
modelled as exact round-half-to-even to 2 decimal places.
-/

namespace UberProf

/-- Round-half-to-even to the nearest integer, as the Python builtin `round` does. -/
def roundHalfEven (x : ℚ) : ℤ :=
  let n := ⌊x⌋
  if x - n < 1/2 then n
  else if 1/2 < x - n then n + 1
  else if n % 2 = 0 then n else n + 1

/-- Model of the Python call `round(x, 2)`: round to 2 decimal places. -/
def round2 (x : ℚ) : ℚ := (roundHalfEven (x * 100) : ℚ) / 100

/-- A calendar date, the parsed form of the `"YYYY-MM-DD"` strings the
program stores and parses with `datetime.strptime`. -/
structure Date where
  year : ℕ
  month : ℕ
  day : ℕ
deriving DecidableEq

/-- Calendar order on dates, as Python compares `date` objects. -/
def Date.le (a b : Date) : Bool :=
  if a.year ≠ b.year then decide (a.year < b.year)
  else if a.month ≠ b.month then decide (a.month < b.month)
  else decide (a.day ≤ b.day)

/-- Strict calendar order on dates. -/
def Date.lt (a b : Date) : Bool := Date.le a b && !(Date.le b a)

/-- The caller-supplied input fields of a trip (the keys of the `trip`
dict before the metric block in `save_trip` runs). -/
structure TripInputs where
  date : Date
  time : String
  end_time : String
  duration : String
  cash_collected : ℚ
  fare : ℚ
  service_fee : ℚ
  taxes : ℚ
  distance_km : ℚ
  tips : ℚ
deriving DecidableEq

/-- A full trip record: the input fields plus the derived fields, the
row shape given by `TRIP_FIELDS`. -/
structure Trip where
  date : Date
  time : String
  end_time : String
  duration : String
  cash_collected : ℚ
  fare : ℚ
  service_fee : ℚ
  taxes : ℚ
  distance_km : ℚ
  tips : ℚ
  earnings : ℚ
  trip_balance : ℚ
  discount : ℚ
  discount_rate : ℚ
  earnings_per_km : ℚ
  fuel_used : ℚ
  estimated_fuel_cost : ℚ
  service_fee_percent : ℚ
  taxes_percent : ℚ
deriving DecidableEq

/-- The metric block shared by `save_trip` (lines 860-868),
`update_trip` (lines 964-972) and `recalculate_trip_data`
(lines 732-740): derives all computed fields from the inputs and the
configuration (fuel efficiency, petrol price).  A Python guard
`... if trip["fare"] else 0.0` is the test `fare ≠ 0` by truthiness. -/
def deriveTripMetrics (i : TripInputs) (eff price : ℚ) : Trip :=
  let earnings := i.fare - (i.service_fee + i.taxes) + i.tips
  let trip_balance := i.fare - (i.cash_collected + i.service_fee + i.taxes)
  let discount := i.fare - i.cash_collected
  let discount_rate := if i.fare = 0 then 0 else round2 (discount / i.fare * 100)
  let earnings_per_km := if i.distance_km = 0 then 0 else round2 (earnings / i.distance_km)
  let fuel_used := if i.distance_km = 0 then 0 else round2 (i.distance_km / eff)
  let estimated_fuel_cost := round2 (fuel_used * price)
  let service_fee_percent := if i.fare = 0 then 0 else round2 (i.service_fee / i.fare * 100)
  let taxes_percent := if i.fare = 0 then 0 else round2 (i.taxes / i.fare * 100)
  { date := i.date, time := i.time, end_time := i.end_time, duration := i.duration,
    cash_collected := i.cash_collected, fare := i.fare, service_fee := i.service_fee,
    taxes := i.taxes, distance_km := i.distance_km, tips := i.tips,
    earnings := earnings, trip_balance := trip_balance, discount := discount,
    discount_rate := discount_rate, earnings_per_km := earnings_per_km,
    fuel_used := fuel_used, estimated_fuel_cost := estimated_fuel_cost,
    service_fee_percent := service_fee_percent, taxes_percent := taxes_percent }

/-- Projects the caller-supplied input fields back out of a trip record. -/
def inputsOfTrip (t : Trip) : TripInputs :=
  { date := t.date, time := t.time, end_time := t.end_time, duration := t.duration,
    cash_collected := t.cash_collected, fare := t.fare, service_fee := t.service_fee,
    taxes := t.taxes, distance_km := t.distance_km, tips := t.tips }

/-- Model of `recalculate_trip_data`: re-derives the computed fields of
every trip from its input fields under the current configuration. -/
def recalculate_trip_data (trips : List Trip) (eff price : ℚ) : List Trip :=
  trips.map (fun t => deriveTripMetrics (inputsOfTrip t) eff price)

/-- A fuel purchase record, the row shape given by `FUEL_LOG_FIELDS`. -/
structure FuelLog where
  date : Date
  time : String
  station : String
  location : String
  amount : ℚ
  price_per_liter : ℚ
  liters : ℚ
deriving DecidableEq

/-- Constant `MAX_TANK_CAPACITY` from the source. -/
def MAX_TANK_CAPACITY : ℚ := 60

/-- The in-memory state held by the `UberWallet` object: the trip list,
the fuel-log list, the wallet balance and the current fuel level. -/
structure WalletState where
  trips : List Trip
  fuelLogs : List FuelLog
  balance : ℚ
  currentFuel : ℚ
deriving DecidableEq

/-- Sum of `trip_balance` over a trip list. -/
def sumTripBalance (ts : List Trip) : ℚ := (ts.map Trip.trip_balance).sum

/-- Sum of `fuel_used` over a trip list. -/
def sumFuelUsed (ts : List Trip) : ℚ := (ts.map Trip.fuel_used).sum

/-- Sum of `liters` over a fuel-log list. -/
def sumLiters (ls : List FuelLog) : ℚ := (ls.map FuelLog.liters).sum

/-- Fuel level `total_refueled - total_used`, as the program computes it
in `load_data` and in `recalculate_current_fuel`. -/
def currentFuelLevel (ts : List Trip) (ls : List FuelLog) : ℚ :=
  sumLiters ls - sumFuelUsed ts

/-- Model of `is_duplicate_trip`: does some stored trip share the same
(date, time, distance_km, fare) tuple with the new trip? -/
def is_duplicate_trip (ts : List Trip) (t : Trip) : Bool :=
  ts.any (fun u =>
    decide (u.date = t.date ∧ u.time = t.time ∧
      u.distance_km = t.distance_km ∧ u.fare = t.fare))

/-- The `save_trip` handler inside `add_trip`: derive the metrics, reject
duplicates, otherwise prepend the trip and update balance and fuel
incrementally.  The `Bool` reports whether the trip was accepted. -/
def save_trip (s : WalletState) (i : TripInputs) (eff price : ℚ) :
    WalletState × Bool :=
  let t := deriveTripMetrics i eff price
  if is_duplicate_trip s.trips t then (s, false)
  else
    ({ trips := t :: s.trips, fuelLogs := s.fuelLogs,
       balance := s.balance + t.trip_balance,
       currentFuel := s.currentFuel - t.fuel_used }, true)

/-- Model of `recalculate_current_fuel`: recompute the fuel level from
the current lists. -/
def recalculate_current_fuel (s : WalletState) : WalletState :=
  { s with currentFuel := currentFuelLevel s.trips s.fuelLogs }

/-- Model of `recalculate_balance_and_fuel`: recompute balance and fuel
level from the current lists. -/
def recalculate_balance_and_fuel (s : WalletState) : WalletState :=
  recalculate_current_fuel { s with balance := sumTripBalance s.trips }

/-- The `update_trip` handler inside `edit_selected_trip`: replace the
trip at the selected index with the re-derived record, then recompute
balance and fuel in full. -/
def update_trip (s : WalletState) (idx : ℕ) (i : TripInputs) (eff price : ℚ) :
    WalletState :=
  let t := deriveTripMetrics i eff price
  recalculate_balance_and_fuel { s with trips := s.trips.set idx t }

/-- Model of `delete_selected_trip` (after confirmation): remove the
trip at the selected index, then recompute balance and fuel in full. -/
def delete_trip (s : WalletState) (idx : ℕ) : WalletState :=
  recalculate_balance_and_fuel { s with trips := s.trips.eraseIdx idx }

/-- Model of `add_fuel`: reject if the dialog result exceeds tank
capacity, otherwise prepend the log and recompute the fuel level.  The
`Bool` reports whether the purchase was accepted. -/
def add_fuel (s : WalletState) (log : FuelLog) : WalletState × Bool :=
  if log.liters > MAX_TANK_CAPACITY then (s, false)
  else (recalculate_current_fuel { s with fuelLogs := log :: s.fuelLogs }, true)

/-- Model of `edit_selected_fuel_log`: replace the log at the selected
index, then recompute the fuel level. -/
def update_fuel_log (s : WalletState) (idx : ℕ) (log : FuelLog) : WalletState :=
  recalculate_current_fuel { s with fuelLogs := s.fuelLogs.set idx log }

/-- Model of `delete_selected_fuel_log` (after confirmation): remove the
log at the selected index, then recompute the fuel level. -/
def delete_fuel_log (s : WalletState) (idx : ℕ) : WalletState :=
  recalculate_current_fuel { s with fuelLogs := s.fuelLogs.eraseIdx idx }

/-- The ledger invariant the spec states: the stored balance is the sum
of trip balances and the stored fuel level is liters purchased minus
liters consumed. -/
def WalletInv (s : WalletState) : Prop :=
  s.balance = sumTripBalance s.trips ∧
  s.currentFuel = currentFuelLevel s.trips s.fuelLogs

instance (s : WalletState) : Decidable (WalletInv s) := by
  unfold WalletInv; infer_instance

/-- Model of `validate_positive_float`: accepts the value unless it is
negative (zero passes). -/
def validate_positive_float (v : ℚ) : Option ℚ :=
  if v < 0 then none else some v

/-- The distinct rejection paths of `FuelDialog.on_save`. -/
inductive FuelSaveError where
  | invalidAmount : FuelSaveError
  | invalidPrice : FuelSaveError
  | missingStation : FuelSaveError
  | missingLocation : FuelSaveError
  | divisionByZero : FuelSaveError
  | exceedsCapacity : FuelSaveError
deriving DecidableEq

/-- The save handler of the fuel dialog, `FuelDialog.on_save`: validate
amount and price as non-negative floats, require station and location,
compute `liters = amount / price` (a zero price raises
`ZeroDivisionError`, caught by the generic `except` of the handler and
reported as an error), and reject liters above `MAX_TANK_CAPACITY`. -/
def FuelDialog.on_save (date : Date) (time station location : String)
    (amount price : ℚ) : Except FuelSaveError FuelLog :=
  match validate_positive_float amount with
  | none => .error .invalidAmount
  | some a =>
    match validate_positive_float price with
    | none => .error .invalidPrice
    | some p =>
      if station = "" then .error .missingStation
      else if location = "" then .error .missingLocation
      else if p = 0 then .error .divisionByZero
      else
        let liters := a / p
        if liters > MAX_TANK_CAPACITY then .error .exceedsCapacity
        else .ok { date := date, time := time, station := station,
                   location := location, amount := a, price_per_liter := p,
                   liters := liters }

/-- The distinct outcomes of `generate_report`, one constructor per
return branch of the Python function (each carries its message or the
aggregate values instead of the formatted string). -/
inductive ReportResult where
  | noData : ReportResult
  | inputError : String → ReportResult
  | invalidType : ReportResult
  | noTripsInPeriod : ReportResult
  | report : String → ℕ → ℚ → ℚ → ℚ → ℚ → ReportResult
deriving DecidableEq

/-- The weekly filter predicate:
`start_date <= trip date <= end_date`, dates compared in calendar order. -/
def tripInDateRange (startD endD : Date) (t : Trip) : Bool :=
  Date.le startD t.date && Date.le t.date endD

/-- The reduction at the end of `generate_report`: zero matches give the
"no trips" result, otherwise count, total distance, total earnings and
total estimated fuel cost are summed from the stored per-trip fields and
net earnings is their difference. -/
def reportTotals (title : String) (filtered : List Trip) : ReportResult :=
  if filtered.isEmpty then .noTripsInPeriod
  else
    let total_earnings := (filtered.map Trip.earnings).sum
    let total_distance := (filtered.map Trip.distance_km).sum
    let total_fuel_cost := (filtered.map Trip.estimated_fuel_cost).sum
    .report title filtered.length total_distance total_earnings total_fuel_cost
      (total_earnings - total_fuel_cost)

/-- Model of `generate_report(report_type, start_date, end_date, month,
year, day)`.  Optional parameters are `Option`s; by Python truthiness the
parameters `month` and `year` count as missing when `None` or `0`. -/
def generate_report (trips : List Trip) (report_type : String)
    (start_date end_date : Option Date) (month year : Option ℕ)
    (day : Option Date) : ReportResult :=
  if trips.isEmpty then .noData
  else if report_type = "daily" then
    match day with
    | some d => reportTotals "Daily Report" (trips.filter (fun t => decide (t.date = d)))
    | none => .inputError "Please select a date for the daily report."
  else if report_type = "weekly" then
    match start_date, end_date with
    | some sd, some ed => reportTotals "Weekly Report" (trips.filter (tripInDateRange sd ed))
    | _, _ => .inputError "Please select start and end dates for the weekly report."
  else if report_type = "monthly" then
    match month, year with
    | some m, some y =>
      if m ≠ 0 ∧ y ≠ 0 then
        reportTotals "Monthly Report"
          (trips.filter (fun t => decide (t.date.year = y ∧ t.date.month = m)))
      else .inputError "Please select month and year for the monthly report."
    | _, _ => .inputError "Please select month and year for the monthly report."
  else .invalidType

/-- Sort order `ORDER BY date DESC, time DESC` for trips: `a` sorts no
later than `b` when `a` is newer or equally new. -/
def tripNewer (a b : Trip) : Prop :=
  Date.lt b.date a.date = true ∨ (a.date = b.date ∧ b.time ≤ a.time)

instance : DecidableRel tripNewer := by
  unfold tripNewer; infer_instance

/-- Sort order `ORDER BY date DESC, time DESC` for fuel logs. -/
def fuelNewer (a b : FuelLog) : Prop :=
  Date.lt b.date a.date = true ∨ (a.date = b.date ∧ b.time ≤ a.time)

instance : DecidableRel fuelNewer := by
  unfold fuelNewer; infer_instance

/-- Model of `load_data` with its default arguments (`limit=100`,
`offset=0`): load the newest 100 trips and fuel logs (date then time,
descending), set the balance to the sum of the loaded trip balances and
the fuel level to loaded liters purchased minus loaded liters used. -/
def load_data (dbTrips : List Trip) (dbFuel : List FuelLog) : WalletState :=
  let ts := (List.insertionSort tripNewer dbTrips).take 100
  let ls := (List.insertionSort fuelNewer dbFuel).take 100
  { trips := ts, fuelLogs := ls,
    balance := sumTripBalance ts,
    currentFuel := currentFuelLevel ts ls }

/-- The worked example of the spec: fare=1000, cash_collected=800,
service_fee=100, taxes=50, distance_km=10, tips=20. -/
def exampleInputs : TripInputs :=
  { date := ⟨2024, 5, 1⟩, time := "08:00", end_time := "08:30", duration := "00:30:00",
    cash_collected := 800, fare := 1000, service_fee := 100, taxes := 50,
    distance_km := 10, tips := 20 }

/-- The worked example with fare and distance both zero, exercising the
guarded division branches. -/
def exampleZeroInputs : TripInputs :=
  { exampleInputs with fare := 0, distance_km := 0 }

/-- The trip derived from `exampleInputs` under fuel_efficiency=25 and
petrol_price=180. -/
def exampleTrip : Trip := deriveTripMetrics exampleInputs 25 180

/-- The boundary fuel purchase of the spec: amount=6000 at price=100,
exactly 60 liters. -/
def exampleFuelLog : FuelLog :=
  { date := ⟨2024, 5, 1⟩, time := "10:00", station := "Shell", location := "Nairobi",
    amount := 6000, price_per_liter := 100, liters := 60 }

/-- The freshly initialised state: no records, zero balance, zero fuel. -/
def emptyState : WalletState :=
  { trips := [], fuelLogs := [], balance := 0, currentFuel := 0 }

/-- A state holding the example trip and the example fuel purchase, with
balance and fuel level consistent with them. -/
def exampleState : WalletState :=
  { trips := [exampleTrip], fuelLogs := [exampleFuelLog],
    balance := exampleTrip.trip_balance,
    currentFuel := exampleFuelLog.liters - exampleTrip.fuel_used }

/-- Characterisation of the strict calendar order as lexicographic
comparison of the fields. -/
def Date.lt_iff (a b : Date) : Date.lt a b = true ↔
    a.year < b.year ∨ (a.year = b.year ∧
      (a.month < b.month ∨ (a.month = b.month ∧ a.day < b.day))) := by
  unfold Date.lt Date.le
  split_ifs <;> simp_all <;> omega

/-- Totality of the newest-first ordering on a (date, time) pair. -/
def newerPair_total (da db : Date) (ta tb : String) :
    (Date.lt db da = true ∨ (da = db ∧ tb ≤ ta)) ∨
      (Date.lt da db = true ∨ (db = da ∧ ta ≤ tb)) := by
  by_cases hd : da = db
  · rcases le_total tb ta with h | h
    · exact Or.inl (Or.inr ⟨hd, h⟩)
    · exact Or.inr (Or.inr ⟨hd.symm, h⟩)
  · refine (Or.imp Or.inl Or.inl ?_ : _)
    rw [Date.lt_iff, Date.lt_iff]
    have hfields : da.year ≠ db.year ∨ da.month ≠ db.month ∨ da.day ≠ db.day := by
      by_contra hc
      push_neg at hc
      exact hd (by cases da; cases db; simp_all)
    omega

/-- Transitivity of the newest-first ordering on a (date, time) pair. -/
def newerPair_trans (da db dc : Date) (ta tb tc : String)
    (hab : Date.lt db da = true ∨ (da = db ∧ tb ≤ ta))
    (hbc : Date.lt dc db = true ∨ (db = dc ∧ tc ≤ tb)) :
    Date.lt dc da = true ∨ (da = dc ∧ tc ≤ ta) := by
  rcases hab with hab | ⟨hab, htab⟩ <;> rcases hbc with hbc | ⟨hbc, htbc⟩
  · left
    rw [Date.lt_iff] at *
    omega
  · left
    rw [hbc] at hab
    exact hab
  · left
    rw [hab]
    exact hbc
  · exact Or.inr ⟨hab.trans hbc, htbc.trans htab⟩

instance : IsTotal Trip tripNewer :=
  ⟨fun a b => newerPair_total a.date b.date a.time b.time⟩

instance : IsTrans Trip tripNewer :=
  ⟨fun a b c => newerPair_trans a.date b.date c.date a.time b.time c.time⟩

instance : IsTotal FuelLog fuelNewer :=
  ⟨fun a b => newerPair_total a.date b.date a.time b.time⟩

instance : IsTrans FuelLog fuelNewer :=
  ⟨fun a b c => newerPair_trans a.date b.date c.date a.time b.time c.time⟩

theorem is_duplicate_trip_iff (ts : List Trip) (t : Trip) :
    is_duplicate_trip ts t = true ↔
      ∃ u ∈ ts, u.date = t.date ∧ u.time = t.time ∧
        u.distance_km = t.distance_km ∧ u.fare = t.fare := by
  simp [is_duplicate_trip]

/-- C1: for every accepted or recalculated trip the derived fields equal
the spec formulas — earnings exactly (no rounding), the other derived
fields rounded to 2 decimals with the zero guards — and on the worked
example (fare=1000, cash_collected=800, service_fee=100, taxes=50,
tips=20, distance_km=10, fuel_efficiency=25, petrol_price=180) they are
earnings=870, trip_balance=50, discount=200, discount_rate=20.0,
earnings_per_km=87.0, fuel_used=0.4, estimated_fuel_cost=72.0,
service_fee_percent=10.0, taxes_percent=5.0. -/
theorem trip_metrics_match_spec (i : TripInputs) (eff price : ℚ) :
    ((deriveTripMetrics i eff price).earnings =
        i.fare - (i.service_fee + i.taxes) + i.tips ∧
      (deriveTripMetrics i eff price).trip_balance =
        i.fare - (i.cash_collected + i.service_fee + i.taxes) ∧
      (deriveTripMetrics i eff price).discount = i.fare - i.cash_collected ∧
      (deriveTripMetrics i eff price).discount_rate =
        (if i.fare = 0 then 0
          else round2 ((i.fare - i.cash_collected) / i.fare * 100)) ∧
      (deriveTripMetrics i eff price).earnings_per_km =
        (if i.distance_km = 0 then 0
          else round2 ((i.fare - (i.service_fee + i.taxes) + i.tips) / i.distance_km)) ∧
      (deriveTripMetrics i eff price).fuel_used =
        (if i.distance_km = 0 then 0 else round2 (i.distance_km / eff)) ∧
      (deriveTripMetrics i eff price).estimated_fuel_cost =
        round2 ((deriveTripMetrics i eff price).fuel_used * price) ∧
      (deriveTripMetrics i eff price).service_fee_percent =
        (if i.fare = 0 then 0 else round2 (i.service_fee / i.fare * 100)) ∧
      (deriveTripMetrics i eff price).taxes_percent =
        (if i.fare = 0 then 0 else round2 (i.taxes / i.fare * 100))) ∧
    (exampleTrip.earnings = 870 ∧ exampleTrip.trip_balance = 50 ∧
      exampleTrip.discount = 200 ∧ exampleTrip.discount_rate = 20 ∧
      exampleTrip.earnings_per_km = 87 ∧ exampleTrip.fuel_used = 2/5 ∧
      exampleTrip.estimated_fuel_cost = 72 ∧
      exampleTrip.service_fee_percent = 10 ∧ exampleTrip.taxes_percent = 5) := by
  constructor
  · exact ⟨rfl, rfl, rfl, rfl, rfl, rfl, rfl, rfl, rfl⟩
  · refine ⟨?_, ?_, ?_, ?_, ?_, ?_, ?_, ?_, ?_⟩ <;>
      norm_num [exampleTrip, exampleInputs, deriveTripMetrics, round2, roundHalfEven]

/-- C8: a zero fare makes discount_rate, service_fee_percent and
taxes_percent come out 0.0 instead of dividing by zero, and a zero
distance makes earnings_per_km and fuel_used come out 0.0. -/
theorem zero_guards (i : TripInputs) (eff price : ℚ) :
    (i.fare = 0 →
      (deriveTripMetrics i eff price).discount_rate = 0 ∧
      (deriveTripMetrics i eff price).service_fee_percent = 0 ∧
      (deriveTripMetrics i eff price).taxes_percent = 0) ∧
    (i.distance_km = 0 →
      (deriveTripMetrics i eff price).earnings_per_km = 0 ∧
      (deriveTripMetrics i eff price).fuel_used = 0) := by
  constructor
  · intro h
    refine ⟨?_, ?_, ?_⟩ <;> simp [deriveTripMetrics, h]
  · intro h
    refine ⟨?_, ?_⟩ <;> simp [deriveTripMetrics, h]

/-- Witness for C8 at the concrete zero-fare, zero-distance input. -/
theorem zero_guards_witness :
    (deriveTripMetrics exampleZeroInputs 25 180).discount_rate = 0 ∧
    (deriveTripMetrics exampleZeroInputs 25 180).earnings_per_km = 0 :=
  ⟨((zero_guards exampleZeroInputs 25 180).1 rfl).1,
    ((zero_guards exampleZeroInputs 25 180).2 rfl).1⟩

/-- C9: re-deriving every trip is idempotent — a second run under the
same configuration changes nothing, because the derivation reads only
the input fields, which it preserves. -/
theorem recalculate_trip_data_idempotent (ts : List Trip) (eff price : ℚ) :
    recalculate_trip_data (recalculate_trip_data ts eff price) eff price =
        recalculate_trip_data ts eff price ∧
    (∀ i : TripInputs, inputsOfTrip (deriveTripMetrics i eff price) = i) := by
  constructor
  · unfold recalculate_trip_data
    rw [List.map_map]
    exact List.map_congr_left (fun t _ => rfl)
  · intro i
    rfl

theorem recalculate_balance_and_fuel_inv (s : WalletState) :
    WalletInv (recalculate_balance_and_fuel s) := ⟨rfl, rfl⟩

/-- C2: a new trip is rejected as a duplicate exactly when some stored
trip shares the same (date, start time, distance_km, fare) tuple — so
changing any one of the four fields away from every stored trip permits
creation — and a rejected creation leaves the whole state (trip list,
balance, fuel level) unchanged. -/
theorem save_trip_duplicate_rule (s : WalletState) (i : TripInputs) (eff price : ℚ) :
    ((save_trip s i eff price).2 = false ↔
      ∃ u ∈ s.trips, u.date = i.date ∧ u.time = i.time ∧
        u.distance_km = i.distance_km ∧ u.fare = i.fare) ∧
    ((save_trip s i eff price).2 = false → (save_trip s i eff price).1 = s) := by
  refine ⟨⟨?_, ?_⟩, ?_⟩
  · intro hr
    by_cases h : is_duplicate_trip s.trips (deriveTripMetrics i eff price)
    · exact (is_duplicate_trip_iff _ _).mp h
    · simp [save_trip, h] at hr
  · intro hex
    have h : is_duplicate_trip s.trips (deriveTripMetrics i eff price) = true :=
      (is_duplicate_trip_iff _ _).mpr hex
    simp [save_trip, h]
  · intro hr
    by_cases h : is_duplicate_trip s.trips (deriveTripMetrics i eff price)
    · simp [save_trip, h]
    · simp [save_trip, h] at hr

/-- Witness for C2: re-adding the stored example trip is rejected and
leaves the state unchanged. -/
theorem save_trip_duplicate_rule_witness :
    (save_trip exampleState exampleInputs 25 180).1 = exampleState :=
  (save_trip_duplicate_rule exampleState exampleInputs 25 180).2
    ((save_trip_duplicate_rule exampleState exampleInputs 25 180).1.mpr
      ⟨exampleTrip, by simp [exampleState], rfl, rfl, rfl, rfl⟩)

/-- C3: every mutation — trip add, edit or delete, fuel-log add, edit or
delete — keeps the wallet balance equal to the sum of trip balances and
the fuel level equal to liters purchased minus liters consumed, and both
reductions are order-independent. -/
theorem mutations_preserve_ledgers (s : WalletState) (h : WalletInv s)
    (i : TripInputs) (eff price : ℚ) (idx jdx : ℕ) (log : FuelLog) :
    WalletInv (save_trip s i eff price).1 ∧
    WalletInv (update_trip s idx i eff price) ∧
    WalletInv (delete_trip s idx) ∧
    WalletInv (add_fuel s log).1 ∧
    WalletInv (update_fuel_log s jdx log) ∧
    WalletInv (delete_fuel_log s jdx) ∧
    (∀ ts : List Trip, ∀ ls : List FuelLog,
      s.trips.Perm ts → s.fuelLogs.Perm ls →
      sumTripBalance ts = sumTripBalance s.trips ∧
      currentFuelLevel ts ls = currentFuelLevel s.trips s.fuelLogs) := by
  obtain ⟨hb, hf⟩ := h
  refine ⟨?_, ?_, ?_, ?_, ?_, ?_, ?_⟩
  · by_cases hd : is_duplicate_trip s.trips (deriveTripMetrics i eff price)
    · simpa [save_trip, hd] using (⟨hb, hf⟩ : WalletInv s)
    · constructor
      · show (save_trip s i eff price).1.balance = _
        simp only [save_trip, hd, Bool.false_eq_true, if_false]
        simp [sumTripBalance, hb]
        ring
      · show (save_trip s i eff price).1.currentFuel = _
        simp only [save_trip, hd, Bool.false_eq_true, if_false]
        simp [currentFuelLevel, sumLiters, sumFuelUsed, hf]
        ring
  · exact recalculate_balance_and_fuel_inv _
  · exact recalculate_balance_and_fuel_inv _
  · by_cases hc : log.liters > MAX_TANK_CAPACITY
    · simpa [add_fuel, hc] using (⟨hb, hf⟩ : WalletInv s)
    · refine ⟨?_, ?_⟩
      · show (add_fuel s log).1.balance = _
        simp [add_fuel, hc, recalculate_current_fuel, hb]
      · show (add_fuel s log).1.currentFuel = _
        simp [add_fuel, hc, recalculate_current_fuel]
  · exact ⟨hb, rfl⟩
  · exact ⟨hb, rfl⟩
  · intro ts ls hp hq
    constructor
    · exact ((hp.map Trip.trip_balance).sum_eq).symm
    · unfold currentFuelLevel sumLiters sumFuelUsed
      rw [(hp.map Trip.fuel_used).sum_eq, (hq.map FuelLog.liters).sum_eq]

/-- Witness for C3: adding the example trip to the fresh state preserves
the ledger invariant. -/
theorem mutations_preserve_ledgers_witness :
    WalletInv (save_trip emptyState exampleInputs 25 180).1 :=
  (mutations_preserve_ledgers emptyState
    ⟨rfl, by norm_num [emptyState, currentFuelLevel, sumLiters, sumFuelUsed]⟩
    exampleInputs 25 180 0 0 exampleFuelLog).1

theorem reportTotals_ne_nil (title : String) (F : List Trip) (h : F ≠ []) :
    reportTotals title F =
      .report title F.length ((F.map Trip.distance_km).sum) ((F.map Trip.earnings).sum)
        ((F.map Trip.estimated_fuel_cost).sum)
        (((F.map Trip.earnings).sum) - ((F.map Trip.estimated_fuel_cost).sum)) := by
  unfold reportTotals
  rw [if_neg]
  simp [List.isEmpty_iff, h]

theorem reportTotals_nil (title : String) (F : List Trip) (h : F = []) :
    reportTotals title F = .noTripsInPeriod := by
  subst h; rfl

/-- C4: on a non-empty trip list, a daily, weekly or monthly filter that
matches at least one trip makes `generate_report` report the count of
the filtered trips and the sums of their stored distance, earnings and
estimated fuel cost fields, with net earnings equal to total earnings
minus total estimated fuel cost. -/
theorem generate_report_aggregates (trips : List Trip) (d sd ed : Date) (m y : ℕ)
    (hne : trips ≠ []) (hm : m ≠ 0) (hy : y ≠ 0) :
    (trips.filter (fun t => decide (t.date = d)) ≠ [] →
      generate_report trips "daily" none none none none (some d) =
        .report "Daily Report"
          (trips.filter (fun t => decide (t.date = d))).length
          ((trips.filter (fun t => decide (t.date = d))).map Trip.distance_km).sum
          ((trips.filter (fun t => decide (t.date = d))).map Trip.earnings).sum
          ((trips.filter (fun t => decide (t.date = d))).map Trip.estimated_fuel_cost).sum
          (((trips.filter (fun t => decide (t.date = d))).map Trip.earnings).sum -
            ((trips.filter (fun t => decide (t.date = d))).map Trip.estimated_fuel_cost).sum)) ∧
    (trips.filter (tripInDateRange sd ed) ≠ [] →
      generate_report trips "weekly" (some sd) (some ed) none none none =
        .report "Weekly Report"
          (trips.filter (tripInDateRange sd ed)).length
          ((trips.filter (tripInDateRange sd ed)).map Trip.distance_km).sum
          ((trips.filter (tripInDateRange sd ed)).map Trip.earnings).sum
          ((trips.filter (tripInDateRange sd ed)).map Trip.estimated_fuel_cost).sum
          (((trips.filter (tripInDateRange sd ed)).map Trip.earnings).sum -
            ((trips.filter (tripInDateRange sd ed)).map Trip.estimated_fuel_cost).sum)) ∧
    (trips.filter (fun t => decide (t.date.year = y ∧ t.date.month = m)) ≠ [] →
      generate_report trips "monthly" none none (some m) (some y) none =
        .report "Monthly Report"
          (trips.filter (fun t => decide (t.date.year = y ∧ t.date.month = m))).length
          ((trips.filter (fun t => decide (t.date.year = y ∧ t.date.month = m))).map
            Trip.distance_km).sum
          ((trips.filter (fun t => decide (t.date.year = y ∧ t.date.month = m))).map
            Trip.earnings).sum
          ((trips.filter (fun t => decide (t.date.year = y ∧ t.date.month = m))).map
            Trip.estimated_fuel_cost).sum
          (((trips.filter (fun t => decide (t.date.year = y ∧ t.date.month = m))).map
              Trip.earnings).sum -
            ((trips.filter (fun t => decide (t.date.year = y ∧ t.date.month = m))).map
              Trip.estimated_fuel_cost).sum)) := by
  have h0 : ¬ trips.isEmpty = true := by simpa [List.isEmpty_iff] using hne
  refine ⟨?_, ?_, ?_⟩ <;> intro hF
  · have hgr : generate_report trips "daily" none none none none (some d) =
        reportTotals "Daily Report" (trips.filter (fun t => decide (t.date = d))) := by
      simp [generate_report, h0]
    rw [hgr, reportTotals_ne_nil _ _ hF]
  · have hgr : generate_report trips "weekly" (some sd) (some ed) none none none =
        reportTotals "Weekly Report" (trips.filter (tripInDateRange sd ed)) := by
      simp [generate_report, h0]
    rw [hgr, reportTotals_ne_nil _ _ hF]
  · have hgr : generate_report trips "monthly" none none (some m) (some y) none =
        reportTotals "Monthly Report"
          (trips.filter (fun t => decide (t.date.year = y ∧ t.date.month = m))) := by
      simp [generate_report, h0, hm, hy]
    rw [hgr, reportTotals_ne_nil _ _ hF]

/-- Witness for C4: the daily report over the singleton example list. -/
theorem generate_report_aggregates_witness :
    generate_report [exampleTrip] "daily" none none none none (some ⟨2024, 5, 1⟩) =
      .report "Daily Report"
        ([exampleTrip].filter (fun t => decide (t.date = ⟨2024, 5, 1⟩))).length
        (([exampleTrip].filter (fun t => decide (t.date = ⟨2024, 5, 1⟩))).map
          Trip.distance_km).sum
        (([exampleTrip].filter (fun t => decide (t.date = ⟨2024, 5, 1⟩))).map
          Trip.earnings).sum
        (([exampleTrip].filter (fun t => decide (t.date = ⟨2024, 5, 1⟩))).map
          Trip.estimated_fuel_cost).sum
        ((([exampleTrip].filter (fun t => decide (t.date = ⟨2024, 5, 1⟩))).map
            Trip.earnings).sum -
          (([exampleTrip].filter (fun t => decide (t.date = ⟨2024, 5, 1⟩))).map
            Trip.estimated_fuel_cost).sum) :=
  (generate_report_aggregates [exampleTrip] ⟨2024, 5, 1⟩ ⟨2024, 5, 1⟩ ⟨2024, 5, 1⟩
    5 2024 (by simp) (by decide) (by decide)).1
    (by simp [exampleTrip, exampleInputs, deriveTripMetrics, List.filter])

/-- C5: `generate_report` returns the distinct no-data result on an empty
trip list, a caller-input error when required filter parameters are
missing, and a distinct no-trips-in-period result when the filter
matches zero trips on a non-empty list; the three outcomes are pairwise
distinguishable. -/
theorem generate_report_outcomes (trips : List Trip) (hne : trips ≠ [])
    (sd ed : Option Date) (m y : Option ℕ) (day : Option Date)
    (d sd0 ed0 : Date) (m0 y0 : ℕ) (msg : String) :
    (∀ rt, generate_report [] rt sd ed m y day = .noData) ∧
    generate_report trips "daily" sd ed m y none =
      .inputError "Please select a date for the daily report." ∧
    generate_report trips "weekly" none ed m y day =
      .inputError "Please select start and end dates for the weekly report." ∧
    generate_report trips "weekly" sd none m y day =
      .inputError "Please select start and end dates for the weekly report." ∧
    generate_report trips "monthly" sd ed none y day =
      .inputError "Please select month and year for the monthly report." ∧
    generate_report trips "monthly" sd ed m none day =
      .inputError "Please select month and year for the monthly report." ∧
    (trips.filter (fun t => decide (t.date = d)) = [] →
      generate_report trips "daily" none none none none (some d) = .noTripsInPeriod) ∧
    (trips.filter (tripInDateRange sd0 ed0) = [] →
      generate_report trips "weekly" (some sd0) (some ed0) none none none =
        .noTripsInPeriod) ∧
    (m0 ≠ 0 → y0 ≠ 0 →
      trips.filter (fun t => decide (t.date.year = y0 ∧ t.date.month = m0)) = [] →
      generate_report trips "monthly" none none (some m0) (some y0) none =
        .noTripsInPeriod) ∧
    ((ReportResult.noData ≠ .inputError msg) ∧
      (ReportResult.noData ≠ .noTripsInPeriod) ∧
      (ReportResult.inputError msg ≠ .noTripsInPeriod)) := by
  have h0 : ¬ trips.isEmpty = true := by simpa [List.isEmpty_iff] using hne
  refine ⟨?_, ?_, ?_, ?_, ?_, ?_, ?_, ?_, ?_, by simp, by simp, by simp⟩
  · intro rt
    simp [generate_report]
  · simp [generate_report, h0]
  · cases ed <;> simp [generate_report, h0]
  · cases sd <;> simp [generate_report, h0]
  · simp [generate_report, h0]
  · cases m <;> simp [generate_report, h0]
  · intro hF
    have hgr : generate_report trips "daily" none none none none (some d) =
        reportTotals "Daily Report" (trips.filter (fun t => decide (t.date = d))) := by
      simp [generate_report, h0]
    rw [hgr, reportTotals_nil _ _ hF]
  · intro hF
    have hgr : generate_report trips "weekly" (some sd0) (some ed0) none none none =
        reportTotals "Weekly Report" (trips.filter (tripInDateRange sd0 ed0)) := by
      simp [generate_report, h0]
    rw [hgr, reportTotals_nil _ _ hF]
  · intro hm0 hy0 hF
    have hgr : generate_report trips "monthly" none none (some m0) (some y0) none =
        reportTotals "Monthly Report"
          (trips.filter (fun t => decide (t.date.year = y0 ∧ t.date.month = m0))) := by
      simp [generate_report, h0, hm0, hy0]
    rw [hgr, reportTotals_nil _ _ hF]

/-- Witness for C5: the empty list gives the no-data result. -/
theorem generate_report_outcomes_witness :
    generate_report [] "monthly" none none none none none = .noData :=
  (generate_report_outcomes [exampleTrip] (by simp) none none none none none
    ⟨2024, 5, 1⟩ ⟨2024, 5, 1⟩ ⟨2024, 5, 1⟩ 5 2024 "msg").1 "monthly"

/-- C6: a fuel purchase is accepted only when its computed liters do not
exceed the 60-liter tank capacity, a rejection leaves the state (hence
the fuel-log list) unchanged, and at the boundary amount=6000 at
price=100 (60 liters) is accepted while amount=6001 at price=100
(60.01 liters) is rejected. -/
theorem fuel_capacity_rule (date : Date) (time station location : String)
    (amount price : ℚ) (log : FuelLog) (s : WalletState) :
    (∀ l, FuelDialog.on_save date time station location amount price = .ok l →
      l.liters ≤ MAX_TANK_CAPACITY) ∧
    ((add_fuel s log).2 = false ↔ log.liters > MAX_TANK_CAPACITY) ∧
    ((add_fuel s log).2 = false → (add_fuel s log).1 = s) ∧
    FuelDialog.on_save ⟨2024, 5, 1⟩ "10:00" "Shell" "Nairobi" 6000 100 =
      .ok exampleFuelLog ∧
    FuelDialog.on_save ⟨2024, 5, 1⟩ "10:00" "Shell" "Nairobi" 6001 100 =
      .error .exceedsCapacity := by
  refine ⟨?_, ?_, ?_, ?_, ?_⟩
  · intro l hl
    unfold FuelDialog.on_save validate_positive_float at hl
    split_ifs at hl with h1 h2 h3 h4
    all_goals try simp at hl
    by_cases h5 : price = 0
    · rw [if_pos h5] at hl
      simp at hl
    · rw [if_neg h5] at hl
      by_cases h6 : MAX_TANK_CAPACITY < amount / price
      · rw [if_pos h6] at hl
        simp at hl
      · rw [if_neg h6] at hl
        simp at hl
        subst hl
        exact le_of_not_lt h6
  · by_cases hc : log.liters > MAX_TANK_CAPACITY <;> simp [add_fuel, hc]
  · intro hr
    by_cases hc : log.liters > MAX_TANK_CAPACITY
    · simp [add_fuel, hc]
    · simp [add_fuel, hc] at hr
  · norm_num [FuelDialog.on_save, validate_positive_float, MAX_TANK_CAPACITY,
      exampleFuelLog]
    simp
  · norm_num [FuelDialog.on_save, validate_positive_float, MAX_TANK_CAPACITY]
    simp

/-- Witness for C6: the over-capacity boundary purchase is rejected. -/
theorem fuel_capacity_rule_witness :
    FuelDialog.on_save ⟨2024, 5, 1⟩ "10:00" "Shell" "Nairobi" 6001 100 =
      .error .exceedsCapacity :=
  (fuel_capacity_rule ⟨2024, 5, 1⟩ "10:00" "Shell" "Nairobi" 6001 100
    exampleFuelLog emptyState).2.2.2.2

/-- Counterexample for C7: a price of 0 is not rejected by the
validation step — `validate_positive_float` accepts 0 — and the save
then fails on the division itself (the `ZeroDivisionError` path), not
with a pre-division validation failure. -/
theorem price_zero_not_validated :
    validate_positive_float 0 = some 0 ∧
    FuelDialog.on_save ⟨2024, 5, 1⟩ "10:00" "Shell" "Nairobi" 500 0 =
      .error .divisionByZero := by
  constructor
  · norm_num [validate_positive_float]
  · norm_num [FuelDialog.on_save, validate_positive_float]
    simp

/-- C7 (amended): price_per_liter is validated only to be non-negative,
so a price of 0 passes validation; the division `amount / price` then
raises a division-by-zero error that the save handler catches, so the
save is rejected — explicitly, never producing a fuel log — but not by a
strictly-positive pre-division validation. -/
theorem price_validation_and_zero_division (v amount : ℚ) (date : Date)
    (time station location : String)
    (hs : station ≠ "") (hl : location ≠ "") (ha : ¬ amount < 0) :
    (validate_positive_float v = some v ↔ 0 ≤ v) ∧
    (validate_positive_float v = none ↔ v < 0) ∧
    FuelDialog.on_save date time station location amount 0 =
      .error .divisionByZero ∧
    (∀ l, FuelDialog.on_save date time station location amount 0 ≠ .ok l) := by
  have hz : FuelDialog.on_save date time station location amount 0 =
      .error .divisionByZero := by
    unfold FuelDialog.on_save validate_positive_float
    simp [ha, hs, hl]
  refine ⟨?_, ?_, hz, fun l hcontra => by rw [hz] at hcontra; exact Except.noConfusion hcontra⟩
  · unfold validate_positive_float
    split_ifs with h
    · simp [not_le.mpr h]
    · simp [not_lt.mp h]
  · unfold validate_positive_float
    split_ifs with h
    · simp [h]
    · simp [h]

/-- Witness for C7 (amended) at a concrete refill of amount 500 and
price 0. -/
theorem price_validation_and_zero_division_witness :
    validate_positive_float 5 = some 5 ∧
    FuelDialog.on_save ⟨2024, 5, 1⟩ "10:00" "Shell" "Nairobi" 500 0 =
      .error .divisionByZero :=
  ⟨(price_validation_and_zero_division 5 500 ⟨2024, 5, 1⟩ "10:00" "Shell" "Nairobi"
      (by simp) (by simp) (by norm_num)).1.mpr (by norm_num),
    (price_validation_and_zero_division 5 500 ⟨2024, 5, 1⟩ "10:00" "Shell" "Nairobi"
      (by simp) (by simp) (by norm_num)).2.2.1⟩

/-- C10: with default arguments, `load_data` keeps at most 100 trips and
100 fuel logs (the newest first by date then time), computes balance and
fuel level over the loaded records only, returns exactly 100 trips when
the database holds more, and on a database of 101 copies of the example
trip the session balance covers 100 of them while the full-database sum
covers all 101. -/
theorem load_data_pagination (dbTrips : List Trip) (dbFuel : List FuelLog)
    (h : 100 < dbTrips.length) :
    (load_data dbTrips dbFuel).trips.length ≤ 100 ∧
    (load_data dbTrips dbFuel).fuelLogs.length ≤ 100 ∧
    List.Sorted tripNewer (load_data dbTrips dbFuel).trips ∧
    List.Sorted fuelNewer (load_data dbTrips dbFuel).fuelLogs ∧
    (load_data dbTrips dbFuel).balance =
      sumTripBalance (load_data dbTrips dbFuel).trips ∧
    (load_data dbTrips dbFuel).currentFuel =
      currentFuelLevel (load_data dbTrips dbFuel).trips
        (load_data dbTrips dbFuel).fuelLogs ∧
    (load_data dbTrips dbFuel).trips.length = 100 ∧
    (load_data (List.replicate 101 exampleTrip) []).balance =
      100 * exampleTrip.trip_balance ∧
    sumTripBalance (List.replicate 101 exampleTrip) =
      101 * exampleTrip.trip_balance ∧
    exampleTrip.trip_balance = 50 := by
  have hsort : List.insertionSort tripNewer (List.replicate 101 exampleTrip) =
      List.replicate 101 exampleTrip := by
    have hperm := List.perm_insertionSort tripNewer (List.replicate 101 exampleTrip)
    refine List.eq_replicate_iff.mpr ⟨by simp [hperm.length_eq], ?_⟩
    exact fun b hb => List.eq_of_mem_replicate (hperm.mem_iff.mp hb)
  have hrep : ∀ n : ℕ, sumTripBalance (List.replicate n exampleTrip) =
      n * exampleTrip.trip_balance := by
    intro n
    unfold sumTripBalance
    rw [List.map_replicate, List.sum_replicate, nsmul_eq_mul]
  refine ⟨?_, ?_, ?_, ?_, rfl, rfl, ?_, ?_, hrep 101, ?_⟩
  · simp [load_data]
  · simp [load_data]
  · exact List.Pairwise.sublist (List.take_sublist _ _)
      (List.sorted_insertionSort tripNewer dbTrips)
  · exact List.Pairwise.sublist (List.take_sublist _ _)
      (List.sorted_insertionSort fuelNewer dbFuel)
  · simp [load_data]
    omega
  · show sumTripBalance ((List.insertionSort tripNewer
        (List.replicate 101 exampleTrip)).take 100) = _
    rw [hsort, List.take_replicate]
    simpa using hrep 100
  · norm_num [exampleTrip, exampleInputs, deriveTripMetrics]

/-- Witness for C10: a database of 101 trips loads exactly 100. -/
theorem load_data_pagination_witness :
    (load_data (List.replicate 101 exampleTrip) []).trips.length = 100 :=
  (load_data_pagination (List.replicate 101 exampleTrip) [] (by simp)).2.2.2.2.2.2.1

end UberProf
